import Mathlib

/-!
Verification development for the Stratus ATC client core
(`client/src/core` of the sayintentionsaiml repository).

Shallow embedding conventions:
* Python `str` values are modelled as Lean `String` / `List Char`
  (ASCII semantics; the inputs handled by the program are ASCII).
* Python `float` quantities (timestamps, airspeeds, altitudes,
  frequencies) are modelled as `ℚ`; every comparison performed by the
  code is against values that are exactly representable, so the
  rational model agrees with IEEE semantics on all inputs considered.
* The regular expressions of `validation.py` are embedded as
  hand-written matchers, one definition per pattern, with Python `re`
  scan semantics (leftmost match, non-overlapping continuation for
  `sub`/`findall`).
-/

/-- Whitespace set of Python `str.strip` and of `\s` for the ASCII inputs
modelled here: space, tab, newline, carriage return, vertical tab, form feed. -/
def isPySpace (c : Char) : Bool :=
  c = ' ' || c = '\t' || c = '\n' || c = '\r' || c = Char.ofNat 11 || c = Char.ofNat 12

/-- Python `str.strip()`: drop leading and trailing whitespace. -/
def pyStrip (s : List Char) : List Char :=
  ((s.dropWhile isPySpace).reverse.dropWhile isPySpace).reverse

/-- ASCII decimal digit, the `\d` class for the inputs modelled here. -/
def isAsciiDigit (c : Char) : Bool :=
  '0' ≤ c && c ≤ '9'

/-- ASCII letter. -/
def isAsciiAlpha (c : Char) : Bool :=
  ('a' ≤ c && c ≤ 'z') || ('A' ≤ c && c ≤ 'Z')

/-- Word character, the `\w` class (ASCII): letter, digit or underscore. -/
def isWordChar (c : Char) : Bool :=
  isAsciiAlpha c || isAsciiDigit c || c = '_'

/-- Case-insensitive comparison helper for one character. -/
def lowEq (a b : Char) : Bool :=
  a.toLower = b.toLower

/-- Case-insensitive "the first list is a prefix of the second". -/
def isPrefixCI : List Char → List Char → Bool
  | [], _ => true
  | _ :: _, [] => false
  | p :: ps, c :: cs => lowEq p c && isPrefixCI ps cs

/-- Case-sensitive "the first list is a prefix of the second". -/
def isPrefixCS : List Char → List Char → Bool
  | [], _ => true
  | _ :: _, [] => false
  | p :: ps, c :: cs => (p = c) && isPrefixCS ps cs

/-- Case-sensitive substring search (Python `pat in s`). -/
def scanHasCS (p : List Char) : List Char → Bool
  | [] => isPrefixCS p []
  | c :: cs => isPrefixCS p (c :: cs) || scanHasCS p cs

/-- Does a matcher (that reports the length it would consume at the head of a
suffix) fire anywhere in the list?  This is `re.search` for the embedded
patterns. -/
def scanHas (m : List Char → Option ℕ) : List Char → Bool
  | [] => false
  | c :: cs => (m (c :: cs)).isSome || scanHas m cs

/-- Worker for `scanRemove`: the first argument counts characters of the
current match still to be deleted before scanning resumes. -/
def scanRemoveAux (m : List Char → Option ℕ) : ℕ → List Char → List Char
  | _ + 1, [] => []
  | k + 1, _ :: cs => scanRemoveAux m k cs
  | 0, [] => []
  | 0, c :: cs =>
    match m (c :: cs) with
    | some (n + 1) => scanRemoveAux m n cs
    | _ => c :: scanRemoveAux m 0 cs

/-- Remove every non-overlapping leftmost occurrence accepted by the matcher,
continuing after each match: `re.sub(pattern, "", s)` for patterns without
zero-width matches. -/
def scanRemove (m : List Char → Option ℕ) (s : List Char) : List Char :=
  scanRemoveAux m 0 s

/-- Worker for `scanFindall`: the first argument counts characters of the
current match still to be skipped before scanning resumes. -/
def scanFindallAux (m : List Char → Option (List Char × ℕ)) :
    ℕ → List Char → List (List Char)
  | _ + 1, [] => []
  | k + 1, _ :: cs => scanFindallAux m k cs
  | 0, [] => []
  | 0, c :: cs =>
    match m (c :: cs) with
    | some (cap, n + 1) => cap :: scanFindallAux m n cs
    | _ => scanFindallAux m 0 cs

/-- Python `re.findall` for a matcher that returns the captured group together with
the length consumed: collect captures of non-overlapping leftmost matches. -/
def scanFindall (m : List Char → Option (List Char × ℕ)) (s : List Char) :
    List (List Char) :=
  scanFindallAux m 0 s

/-- Length of the whitespace run at the head of the list (`\s*`). -/
def wsCount (s : List Char) : ℕ :=
  (s.takeWhile isPySpace).length

/-- Suffix after the leading whitespace run. -/
def wsDrop (s : List Char) : List Char :=
  s.dropWhile isPySpace

/-- Numeric value of a digit string (`int` on an all-digit string). -/
def natOfDigits (ds : List Char) : ℕ :=
  ds.foldl (fun acc c => acc * 10 + (c.toNat - '0'.toNat)) 0

/-- Matcher for a case-insensitive literal. -/
def matchLitCI (pat : String) (s : List Char) : Option ℕ :=
  if isPrefixCI pat.toList s then some pat.toList.length else none

/-- Case-insensitive substring search (`re.search` on a literal pattern with
`re.IGNORECASE`). -/
def containsCI (pat : String) (s : List Char) : Bool :=
  scanHas (matchLitCI pat) s

/-- Helper for the regex `<\|.*?\|>`: looking at the characters after the
opening `<|`, find the number of characters the lazy `.*?` consumes before the
earliest `|>` (the dot does not match a newline).  -/
def ctAux : List Char → Option ℕ
  | '|' :: '>' :: _ => some 0
  | '\n' :: _ => none
  | _ :: cs => (ctAux cs).map (· + 1)
  | [] => none

/-- Matcher for the suspicious pattern `<\|.*?\|>` (LLM control token). -/
def matchControlTok : List Char → Option ℕ
  | '<' :: '|' :: rest => (ctAux rest).map (fun k => k + 4)
  | _ => none

/-- First case-insensitive literal of the list that is a prefix, reported with
its length; used for the alternation `(Human|Assistant|System)`. -/
def firstLitCI : List String → List Char → Option ℕ
  | [], _ => none
  | w :: ws, s => if isPrefixCI w.toList s then some w.toList.length else firstLitCI ws s

/-- Matcher for the suspicious pattern `###\s*(Human|Assistant|System):`. -/
def matchChatRole : List Char → Option ℕ
  | '#' :: '#' :: '#' :: rest =>
    let w := wsCount rest
    let r2 := wsDrop rest
    match firstLitCI ["human", "assistant", "system"] r2 with
    | some n => if (r2.drop n).head? = some ':' then some (3 + w + n + 1) else none
    | none => none
  | _ => none

/-- Matcher for the suspicious pattern `function\s*\(`. -/
def matchFuncJS (s : List Char) : Option ℕ :=
  if isPrefixCI ("function").toList s then
    let r := s.drop 8
    if (wsDrop r).head? = some '(' then some (8 + wsCount r + 1) else none
  else none

/-- Matcher for the suspicious pattern `def\s+\w+\s*\(`. -/
def matchDefPy (s : List Char) : Option ℕ :=
  if isPrefixCI ("def").toList s then
    let r := s.drop 3
    let w := wsCount r
    if w = 0 then none
    else
      let r2 := wsDrop r
      let d := (r2.takeWhile isWordChar).length
      if d = 0 then none
      else
        let r3 := r2.dropWhile isWordChar
        if (wsDrop r3).head? = some '(' then some (3 + w + d + wsCount r3 + 1) else none
  else none

/-- The `SUSPICIOUS_PATTERNS` table of `validation.py`, in source order:
matcher plus the description used in the issue message. -/
def suspiciousPatterns : List ((List Char → Option ℕ) × String) :=
  [ (matchControlTok, "LLM control token"),
    (matchLitCI ("[INST]"), "Instruction marker"),
    (matchLitCI ("[/INST]"), "Instruction marker"),
    (matchLitCI ("<<SYS>>"), "System prompt marker"),
    (matchLitCI ("<</SYS>>"), "System prompt marker"),
    (matchChatRole, "Chat role marker"),
    (matchLitCI ("\x60\x60\x60"), "Code block"),
    (matchLitCI ("<script"), "Script tag"),
    (matchFuncJS, "JavaScript function"),
    (matchDefPy, "Python function"),
    (matchLitCI ("As an AI"), "AI self-reference"),
    (matchLitCI ("I\x27m an AI"), "AI self-reference"),
    (matchLitCI ("language model"), "AI self-reference"),
    (matchLitCI ("I cannot"), "Refusal phrase"),
    (matchLitCI ("I\x27m sorry, but"), "Apology phrase") ]

/-- The suspicious-pattern loop of `validate_atc_response`: for each pattern in
order, if it matches the current text, record "Contains {description}" and
strip every occurrence from the text. -/
def applySuspicious : List ((List Char → Option ℕ) × String) → List Char → List Char × List String
  | [], s => (s, [])
  | (m, d) :: ps, s =>
    if scanHas m s then
      let res := applySuspicious ps (scanRemove m s)
      (res.1, ("Contains " ++ d) :: res.2)
    else applySuspicious ps s

/-- Matcher for the altitude pattern: a captured group of one to six digits,
optional whitespace, then the unit feet, ft, or the single-quote character
(searched with `re.IGNORECASE`); returns the captured digit group and the
length consumed.  A digit run longer than six characters can never complete a
match at its own start (backtracking leaves a digit right after the group,
which fails the unit alternation), so the matcher requires 1-6 digits. -/
def matchAltitude (s : List Char) : Option (List Char × ℕ) :=
  let ds := s.takeWhile isAsciiDigit
  if ds.length = 0 || 6 < ds.length then none
  else
    let r := s.drop ds.length
    let w := wsCount r
    let r2 := wsDrop r
    if isPrefixCI ("feet").toList r2 then some (ds, ds.length + w + 4)
    else if isPrefixCI ("ft").toList r2 then some (ds, ds.length + w + 2)
    else if r2.head? = some (Char.ofNat 39) then some (ds, ds.length + w + 1)
    else none

/-- Matcher for the flight-level pattern `FL\s*(\d{2,3})` (`re.IGNORECASE`). -/
def matchFL (s : List Char) : Option (List Char × ℕ) :=
  if isPrefixCI ("fl").toList s then
    let r := s.drop 2
    let w := wsCount r
    let r2 := wsDrop r
    let run := (r2.takeWhile isAsciiDigit).length
    if run < 2 then none
    else some (r2.take (min run 3), 2 + w + min run 3)
  else none

/-- Matcher for the frequency pattern `(\d{3}[.,]\d{1,3})`. -/
def matchFreq : List Char → Option (List Char × ℕ)
  | a :: b :: c :: sep :: rest =>
    if isAsciiDigit a && isAsciiDigit b && isAsciiDigit c && (sep = '.' || sep = ',') then
      let run := (rest.takeWhile isAsciiDigit).length
      if run = 0 then none
      else some ([a, b, c, sep] ++ rest.take (min run 3), 4 + min run 3)
    else none
  | _ => none

/-- Matcher for the squawk pattern `squawk\s*(\d{4})` (`re.IGNORECASE`). -/
def matchSquawkPat (s : List Char) : Option (List Char × ℕ) :=
  if isPrefixCI ("squawk").toList s then
    let r := s.drop 6
    let w := wsCount r
    let r2 := wsDrop r
    if 4 ≤ (r2.takeWhile isAsciiDigit).length then some (r2.take 4, 6 + w + 4) else none
  else none

/-- Value of a matched frequency string after `float(freq_str.replace(",", "."))`:
three integer digits, a separator, then one to three fractional digits. -/
def freqVal (cap : List Char) : ℚ :=
  (natOfDigits (cap.take 3) : ℚ) + (natOfDigits (cap.drop 4) : ℚ) / (10 ^ (cap.drop 4).length : ℚ)

/-- Unrealistic-altitude issues: `alt > altitude_max` (60000). -/
def altitudeIssues (s : List Char) : List String :=
  (scanFindall matchAltitude s).filterMap fun ds =>
    if 60000 < natOfDigits ds then
      some ("Unrealistic altitude: " ++ toString (natOfDigits ds) ++ "ft")
    else none

/-- Unrealistic-flight-level issues: `fl * 100 > altitude_max`. -/
def flIssues (s : List Char) : List String :=
  (scanFindall matchFL s).filterMap fun ds =>
    if 60000 < natOfDigits ds * 100 then
      some ("Unrealistic flight level: FL" ++ String.mk ds)
    else none

/-- Invalid-frequency issues: outside the VHF band 118.0–137.0 and also outside
the tolerated 0–7777 range. -/
def freqIssues (s : List Char) : List String :=
  (scanFindall matchFreq s).filterMap fun cap =>
    if 118 ≤ freqVal cap ∧ freqVal cap ≤ 137 then none
    else if 0 ≤ freqVal cap ∧ freqVal cap ≤ 7777 then none
    else some ("Invalid frequency: " ++ String.mk cap)

/-- Invalid-squawk issues: a digit 8 or 9, else a value above the octal
maximum 7777. -/
def squawkIssues (s : List Char) : List String :=
  (scanFindall matchSquawkPat s).filterMap fun ds =>
    if ds.contains '8' || ds.contains '9' then
      some ("Invalid squawk code (contains 8 or 9): " ++ String.mk ds)
    else if 7777 < natOfDigits ds then
      some ("Invalid squawk code: " ++ String.mk ds)
    else none

/-- All numeric critical issues of `validate_atc_response`, in source order:
altitudes, flight levels, frequencies, squawk codes. -/
def analyzeIssues (s : List Char) : List String :=
  altitudeIssues s ++ flIssues s ++ freqIssues s ++ squawkIssues s

/-- Scan with a previous-character context, for patterns containing word
boundaries: the matcher receives the character preceding the current position
(none at the start of the text) and the suffix. -/
def scanHasP (m : Option Char → List Char → Bool) : Option Char → List Char → Bool
  | _, [] => false
  | prev, c :: cs => m prev (c :: cs) || scanHasP m (some c) cs

/-- Predicate `isWordChar` lifted to the optional previous character. -/
def isWordOpt : Option Char → Bool
  | none => false
  | some c => isWordChar c

/-- Search for a case-insensitive literal followed by a word boundary, with a
`.*` gap before it: succeed at the current position or after any run of
non-newline gap characters. -/
def gapFindAfter (lit : String) : List Char → Bool
  | [] => false
  | c :: cs =>
    (isPrefixCI lit.toList (c :: cs) && !isWordOpt (((c :: cs).drop lit.toList.length).head?))
    || (c ≠ '\n' && gapFindAfter lit cs)

/-- Like `gapFindAfter` but the literal must also be preceded by a word
boundary (`.*\blit\b`); the previous character is threaded through. -/
def gapFindBoth (lit : String) : Option Char → List Char → Bool
  | _, [] => false
  | prev, c :: cs =>
    (!isWordOpt prev && isPrefixCI lit.toList (c :: cs)
      && !isWordOpt (((c :: cs).drop lit.toList.length).head?))
    || (c ≠ '\n' && gapFindBoth lit (some c) cs)

/-- Matcher for `\bcleared to take\s*off\b`. -/
def pClearedToTakeoff (prev : Option Char) (s : List Char) : Bool :=
  !isWordOpt prev && isPrefixCI ("cleared to take").toList s &&
    (let r := wsDrop (s.drop 15)
     isPrefixCI ("off").toList r && !isWordOpt (r.drop 3).head?)

/-- Matcher for `\btaking off\b`. -/
def pTakingOff (prev : Option Char) (s : List Char) : Bool :=
  !isWordOpt prev && isPrefixCI ("taking off").toList s && !isWordOpt (s.drop 10).head?

/-- Matcher for `\bwith you\b`. -/
def pWithYou (prev : Option Char) (s : List Char) : Bool :=
  !isWordOpt prev && isPrefixCI ("with you").toList s && !isWordOpt (s.drop 8).head?

/-- Matcher for `\bback to you\b`. -/
def pBackToYou (prev : Option Char) (s : List Char) : Bool :=
  !isWordOpt prev && isPrefixCI ("back to you").toList s && !isWordOpt (s.drop 11).head?

/-- Matcher for `\baffirmative\b`. -/
def pAffirmative (prev : Option Char) (s : List Char) : Bool :=
  !isWordOpt prev && isPrefixCI ("affirmative").toList s && !isWordOpt (s.drop 11).head?

/-- Matcher for `\bthis is [A-Z]` (with `re.IGNORECASE` the class matches any
ASCII letter). -/
def pThisIs (prev : Option Char) (s : List Char) : Bool :=
  !isWordOpt prev && isPrefixCI ("this is ").toList s &&
    (match (s.drop 8).head? with
     | some c => isAsciiAlpha c
     | none => false)

/-- Matcher for `\bany traffic.+advise\b` (the `.+` gap is non-empty and
newline-free). -/
def pAnyTrafficAdvise (prev : Option Char) (s : List Char) : Bool :=
  !isWordOpt prev && isPrefixCI ("any traffic").toList s &&
    (match s.drop 11 with
     | [] => false
     | c :: cs => c ≠ '\n' && gapFindAfter ("advise") cs)

/-- The `PROHIBITED_PHRASES` table, in source order. -/
def prohibitedPhrases : List ((Option Char → List Char → Bool) × String) :=
  [ (pClearedToTakeoff, "Use \x27cleared for takeoff\x27 (Tower only)"),
    (pTakingOff, "Use \x27departing\x27 instead"),
    (pWithYou, "Just state position, don\x27t say \x27with you\x27"),
    (pBackToYou, "Use proper handoff phraseology"),
    (pAffirmative, "Use specific readback for clearances"),
    (pThisIs, "Don\x27t say \x27this is\x27, start with callsign"),
    (pAnyTrafficAdvise, "Discouraged - use standard position reports instead") ]

/-- Matcher for `\bcleared.*ILS\b`. -/
def iClearedILS (prev : Option Char) (s : List Char) : Bool :=
  !isWordOpt prev && isPrefixCI ("cleared").toList s && gapFindAfter ("ils") (s.drop 7)

/-- Matcher for `\bcleared.*approach\b`. -/
def iClearedApproach (prev : Option Char) (s : List Char) : Bool :=
  !isWordOpt prev && isPrefixCI ("cleared").toList s && gapFindAfter ("approach") (s.drop 7)

/-- Matcher for `\bcleared.*SID\b`. -/
def iClearedSID (prev : Option Char) (s : List Char) : Bool :=
  !isWordOpt prev && isPrefixCI ("cleared").toList s && gapFindAfter ("sid") (s.drop 7)

/-- Matcher for `\bcleared.*STAR\b`. -/
def iClearedSTAR (prev : Option Char) (s : List Char) : Bool :=
  !isWordOpt prev && isPrefixCI ("cleared").toList s && gapFindAfter ("star") (s.drop 7)

/-- Matcher for `\bhold as published\b`. -/
def iHoldPublished (prev : Option Char) (s : List Char) : Bool :=
  !isWordOpt prev && isPrefixCI ("hold as published").toList s && !isWordOpt (s.drop 17).head?

/-- Matcher for `\bexpect.*vectors\b`. -/
def iExpectVectors (prev : Option Char) (s : List Char) : Bool :=
  !isWordOpt prev && isPrefixCI ("expect").toList s && gapFindAfter ("vectors") (s.drop 6)

/-- Matcher for `\bcleared to.*via\b`. -/
def iClearedToVia (prev : Option Char) (s : List Char) : Bool :=
  !isWordOpt prev && isPrefixCI ("cleared to").toList s && gapFindAfter ("via") (s.drop 10)

/-- The `IFR_SCOPE_VIOLATIONS` table, in source order. -/
def ifrScopeViolations : List ((Option Char → List Char → Bool) × String) :=
  [ (iClearedILS, "IFR approach - out of scope"),
    (iClearedApproach, "IFR approach - out of scope"),
    (iClearedSID, "SID - out of scope"),
    (iClearedSTAR, "STAR - out of scope"),
    (iHoldPublished, "Holding pattern - out of scope"),
    (iExpectVectors, "IFR vectors - out of scope"),
    (iClearedToVia, "IFR routing - out of scope") ]

/-- Warnings of one table: messages `pre ++ description` of the patterns that
match, in table order. -/
def tableWarnings (ps : List ((Option Char → List Char → Bool) × String)) (pre : String)
    (s : List Char) : List String :=
  ps.filterMap fun p => if scanHasP p.1 none s then some (pre ++ p.2) else none

/-- Matcher for `\btaxi\b.*\brunway\b` (the taxi-instruction check). -/
def tTaxiRunway (prev : Option Char) (s : List Char) : Bool :=
  !isWordOpt prev && isPrefixCI ("taxi").toList s && !isWordOpt (s.drop 4).head? &&
    gapFindBoth ("runway") (some 'i') (s.drop 4)

/-- One pass of `re.sub(r'\s+', ' ', s)`: every maximal whitespace run becomes
a single space.  The flag records whether the previous character was part of a
whitespace run. -/
def collapseAux : Bool → List Char → List Char
  | _, [] => []
  | inWs, c :: cs =>
    if isPySpace c then
      if inWs then collapseAux true cs else ' ' :: collapseAux true cs
    else c :: collapseAux false cs

/-- Python `re.sub` of a whitespace run by one space. -/
def collapseWs (s : List Char) : List Char :=
  collapseAux false s

/-- The quote-trimming step: if the text both starts and ends with the given
quote character, drop the first and last character (`s[1:-1]`). -/
def stripQuote (q : Char) (s : List Char) : List Char :=
  if s.head? = some q ∧ s.getLast? = some q then (s.drop 1).dropLast else s

/-- Whitespace/quote cleanup of `validate_atc_response`: strip, remove a
surrounding double-quote pair, remove a surrounding single-quote pair,
collapse internal whitespace. -/
def finalCleanup (s : List Char) : List Char :=
  collapseWs (stripQuote (Char.ofNat 39) (stripQuote '"' (pyStrip s)))

/-- Keywords whose presence in an issue message makes it fatal
(`critical_issues` filter of `validate_atc_response`). -/
def fatalKeywords : List String :=
  ["LLM control", "System prompt", "Script tag", "Empty", "too short"]

/-- Is the issue in the always-fatal subset? (`any(kw in i for kw in ...)`). -/
def isCritical (i : String) : Bool :=
  fatalKeywords.any fun kw => scanHasCS kw.toList i.toList

/-- Result record of `validate_atc_response` (the `ValidationResult`
dataclass). -/
structure ValidationResult where
  valid : Bool
  cleaned_response : String
  issues : List String
  original_response : String
  warnings : List String
deriving DecidableEq, Repr

/-- Text after the suspicious-pattern subtractions, for a non-empty input. -/
def susCleaned (response : String) : List Char :=
  (applySuspicious suspiciousPatterns (pyStrip response.toList)).1

/-- Issues recorded by the suspicious-pattern loop, for a non-empty input. -/
def susIssues (response : String) : List String :=
  (applySuspicious suspiciousPatterns (pyStrip response.toList)).2

/-- Cleaned text of a non-empty input after all stripping and collapsing. -/
def cleanedTextOf (response : String) : List Char :=
  finalCleanup (susCleaned response)

/-- Issue list of `validate_atc_response` for a non-empty input. -/
def issuesOf (response : String) : List String :=
  susIssues response ++ analyzeIssues (susCleaned response) ++
    (if (cleanedTextOf response).length < 5 then ["Response too short"] else [])

/-- Warning list of `validate_atc_response` for a non-empty input. -/
def warningsOf (response : String) : List String :=
  tableWarnings prohibitedPhrases ("Prohibited: ") (susCleaned response) ++
    tableWarnings ifrScopeViolations ("SCOPE: ") (susCleaned response) ++
    (if scanHasP tTaxiRunway none (susCleaned response)
        && !containsCI ("hold short") (susCleaned response) then
      ["Taxi instruction should include \x27hold short\x27 when crossing runways"]
    else [])

/-- Embedding of `validate_atc_response` of `validation.py`. -/
def validate_atc_response (response : String) : ValidationResult :=
  if response = "" then
    { valid := false, cleaned_response := "", issues := ["Empty response"],
      original_response := "", warnings := [] }
  else
    { valid := ((issuesOf response).filter fun i => isCritical i).isEmpty,
      cleaned_response :=
        if (cleanedTextOf response).isEmpty then ("Say again")
        else String.mk (cleanedTextOf response),
      issues := issuesOf response,
      original_response := String.mk (pyStrip response.toList),
      warnings := warningsOf response }

/-! Part 2: the speculative response cache (`response_cache.py`). -/

/-- Flight phases of `response_cache.py` (its own enum, distinct from the
tracker enum). -/
inductive CachePhase
  | PARKED | TAXI_OUT | HOLDING | TAKEOFF | DEPARTURE
  | CRUISE | DESCENT | APPROACH | LANDING | TAXI_IN
deriving DecidableEq, Repr

/-- The `.value` string of a `CachePhase`. -/
def CachePhase.value : CachePhase → String
  | .PARKED => "parked"
  | .TAXI_OUT => "taxi_out"
  | .HOLDING => "holding"
  | .TAKEOFF => "takeoff"
  | .DEPARTURE => "departure"
  | .CRUISE => "cruise"
  | .DESCENT => "descent"
  | .APPROACH => "approach"
  | .LANDING => "landing"
  | .TAXI_IN => "taxi_in"

/-- The `PHASE_INTENTS` lookup table: likely pilot intents per phase. -/
def PHASE_INTENTS : CachePhase → List (String × String)
  | .PARKED =>
    [("request_taxi", "Pilot requests taxi clearance"),
     ("request_ifr_clearance", "Pilot requests IFR clearance"),
     ("atis_check", "Pilot has ATIS information")]
  | .TAXI_OUT =>
    [("hold_short_readback", "Pilot reads back hold short"),
     ("ready_for_departure", "Pilot reports ready for departure"),
     ("request_intersection", "Pilot requests intersection departure")]
  | .HOLDING =>
    [("ready_for_takeoff", "Pilot reports ready for takeoff"),
     ("line_up_and_wait", "Pilot acknowledges line up and wait")]
  | .TAKEOFF =>
    [("contact_departure", "Pilot contacts departure"),
     ("airborne_check_in", "Pilot checks in after takeoff")]
  | .DEPARTURE =>
    [("altitude_leaving", "Pilot reports leaving altitude"),
     ("request_flight_following", "Pilot requests VFR flight following")]
  | .CRUISE =>
    [("position_report", "Pilot gives position report"),
     ("request_altitude_change", "Pilot requests altitude change"),
     ("weather_request", "Pilot requests weather update"),
     ("radio_check", "Pilot requests radio check")]
  | .DESCENT =>
    [("request_lower", "Pilot requests lower altitude"),
     ("atis_received", "Pilot reports ATIS received")]
  | .APPROACH =>
    [("airport_in_sight", "Pilot reports airport in sight"),
     ("request_straight_in", "Pilot requests straight-in approach"),
     ("request_pattern", "Pilot requests pattern entry")]
  | .LANDING =>
    [("clear_of_runway", "Pilot reports clear of runway"),
     ("request_taxi_parking", "Pilot requests taxi to parking")]
  | .TAXI_IN =>
    [("at_gate", "Pilot reports at gate/parking")]

/-- The `CachedResponse` dataclass. -/
structure CachedResponse where
  intent_key : String
  prompt_template : String
  response_text : String
  flight_phase : CachePhase
  context_hash : String
  generated_at : ℚ
  hit_count : ℕ
deriving DecidableEq, Repr

/-- The `CacheStats` dataclass. -/
structure CacheStats where
  hits : ℕ
  misses : ℕ
  generations : ℕ
  invalidations : ℕ
deriving DecidableEq, Repr

/-- State of a `SpeculativeCache`: the dict is modelled as an
insertion-ordered association list with unique keys. -/
structure SpecCache where
  max_cache_size : ℕ
  ttl_seconds : ℚ
  cache : List (String × CachedResponse)
  stats : CacheStats
  current_context_hash : String
  generation_queue : List (String × String × CachePhase)
deriving DecidableEq, Repr

/-- Dict lookup on the association list. -/
def alookup (k : String) : List (String × CachedResponse) → Option CachedResponse
  | [] => none
  | (k2, v) :: rest => if k2 = k then some v else alookup k rest

/-- Dict deletion (`del d[k]`). -/
def aerase (k : String) : List (String × CachedResponse) → List (String × CachedResponse)
  | [] => []
  | (k2, v) :: rest => if k2 = k then rest else (k2, v) :: aerase k rest

/-- Dict assignment (`d[k] = v`): update in place, else append. -/
def aset (k : String) (v : CachedResponse) :
    List (String × CachedResponse) → List (String × CachedResponse)
  | [] => [(k, v)]
  | (k2, v2) :: rest => if k2 = k then (k2, v) :: rest else (k2, v2) :: aset k v rest

/-- Remove the entry with the smallest `generated_at` (earliest insertion on
ties), as one step of the oldest-first trim. -/
def removeMinGen : List (String × CachedResponse) → List (String × CachedResponse)
  | [] => []
  | x :: rest =>
    if rest.all fun y => x.2.generated_at ≤ y.2.generated_at then rest
    else x :: removeMinGen rest

/-- Remove the `n` oldest entries. -/
def removeOldest : ℕ → List (String × CachedResponse) → List (String × CachedResponse)
  | 0, l => l
  | n + 1, l => removeOldest n (removeMinGen l)

/-- Embedding of `SpeculativeCache._trim_cache`: evict the oldest `generated_at` entries
until the cache is within its maximum size. -/
def trim_cache (st : SpecCache) : SpecCache :=
  if st.cache.length ≤ st.max_cache_size then st
  else { st with cache := removeOldest (st.cache.length - st.max_cache_size) st.cache }

/-- Embedding of `SpeculativeCache.get`: serve the entry only if it exists, is within TTL,
and carries the live context fingerprint; on a TTL-expired entry, delete it;
count a hit or a miss accordingly.  `now` models `time.time()`. -/
def cacheGet (st : SpecCache) (now : ℚ) (intent_key : String) : Option String × SpecCache :=
  match alookup intent_key st.cache with
  | none =>
    (none, { st with stats := { st.stats with misses := st.stats.misses + 1 } })
  | some entry =>
    if st.ttl_seconds < now - entry.generated_at then
      (none, { st with cache := aerase intent_key st.cache,
                       stats := { st.stats with misses := st.stats.misses + 1 } })
    else if entry.context_hash ≠ st.current_context_hash then
      (none, { st with stats := { st.stats with misses := st.stats.misses + 1 } })
    else
      (some entry.response_text,
       { st with cache := aset intent_key { entry with hit_count := entry.hit_count + 1 } st.cache,
                 stats := { st.stats with hits := st.stats.hits + 1 } })

/-- Embedding of `SpeculativeCache._build_prompt`. -/
def build_prompt (intent airport runway callsign frequency : String) : String :=
  "You are ATC at " ++ airport ++ ". Active runway is " ++ runway ++ ".\n        \n" ++
  "The pilot (" ++ callsign ++ ") on frequency " ++ frequency ++ " makes this request:\n" ++
  intent ++ "\n\nRespond with proper ATC phraseology. Be brief and realistic."

/-- The context string hashed by `update_context`. -/
def contextString (phase : CachePhase) (airport runway callsign frequency : String) : String :=
  phase.value ++ "|" ++ airport ++ "|" ++ runway ++ "|" ++ callsign ++ "|" ++ frequency

/-- Embedding of `SpeculativeCache.update_context`.  The MD5 fingerprint
`hashlib.md5(...).hexdigest()[:8]` is modelled by the abstract hash function
`fp`: only equality of fingerprints matters to the control flow. -/
def update_context (fp : String → String) (st : SpecCache) (phase : CachePhase)
    (airport runway callsign frequency : String) : SpecCache :=
  let new_hash := fp (contextString phase airport runway callsign frequency)
  if new_hash ≠ st.current_context_hash then
    { st with
      cache := [],
      stats := { st.stats with invalidations := st.stats.invalidations + 1 },
      current_context_hash := new_hash,
      generation_queue := st.generation_queue ++
        (PHASE_INTENTS phase).map fun p =>
          (p.1, build_prompt p.2 airport runway callsign frequency, phase) }
  else st

/-- Embedding of `SpeculativeCache._generate_and_cache` after the injected generation
function returned `response`: on a non-empty response, store it under the
*current* fingerprint with the current time, bump the generation counter and
trim. -/
def generate_and_cache (st : SpecCache) (now : ℚ) (intent_key prompt : String)
    (phase : CachePhase) (response : String) : SpecCache :=
  if response ≠ "" then
    trim_cache
      { st with
        cache := aset intent_key
          { intent_key := intent_key, prompt_template := prompt, response_text := response,
            flight_phase := phase, context_hash := st.current_context_hash,
            generated_at := now, hit_count := 0 } st.cache,
        stats := { st.stats with generations := st.stats.generations + 1 } }
  else st

/-- An entry is servable by `get`: present, within TTL, and generated under
the live fingerprint. -/
def servable (st : SpecCache) (now : ℚ) (intent_key : String) : Prop :=
  ∃ e, alookup intent_key st.cache = some e ∧
    now - e.generated_at ≤ st.ttl_seconds ∧ e.context_hash = st.current_context_hash

/-- Boolean form of `servable`. -/
def servableB (st : SpecCache) (now : ℚ) (k : String) : Bool :=
  match alookup k st.cache with
  | none => false
  | some e =>
    decide (now - e.generated_at ≤ st.ttl_seconds) &&
      decide (e.context_hash = st.current_context_hash)

instance (st : SpecCache) (now : ℚ) (k : String) : Decidable (servable st now k) :=
  decidable_of_iff (servableB st now k = true)
    (by unfold servableB servable; cases alookup k st.cache <;> simp)

/-! Part 3: the flight-phase tracker (`flight_phase.py`). -/

/-- Flight phases of the tracker. -/
inductive FlightPhase
  | UNKNOWN | PARKED | TAXI_OUT | TAKEOFF | DEPARTURE
  | CRUISE | DESCENT | APPROACH | LANDING | TAXI_IN
deriving DecidableEq, Repr

/-- The `PhaseThresholds` dataclass with its default values. -/
structure PhaseThresholds where
  taxi_speed_max : ℚ := 40
  takeoff_speed_min : ℚ := 50
  climb_vs_threshold : ℚ := 300
  descent_vs_threshold : ℚ := -300
  pattern_altitude_agl : ℚ := 2000
  departure_altitude_msl : ℚ := 10000
  phase_confirm_time : ℚ := 3
deriving DecidableEq, Repr

/-- Telemetry snapshot fields read by the tracker and the handoff manager.
`altitude_agl` is taken as always present (the `getattr` fallback to
`altitude_msl` in the source is a caller-side default). -/
structure SimTelemetry where
  connected : Bool
  on_ground : Bool
  ias : ℚ
  vertical_speed : ℚ
  altitude_msl : ℚ
  altitude_agl : ℚ
deriving DecidableEq, Repr

/-- State of a `FlightPhaseTracker`. -/
structure Tracker where
  thresholds : PhaseThresholds
  current_phase : FlightPhase
  pending_phase : Option FlightPhase
  phase_start_time : ℚ
  last_update_time : ℚ
  max_altitude_reached : ℚ
  was_airborne : Bool
deriving DecidableEq, Repr

/-- A freshly constructed tracker. -/
def initTracker (th : PhaseThresholds) : Tracker :=
  { thresholds := th, current_phase := .UNKNOWN, pending_phase := none,
    phase_start_time := 0, last_update_time := 0,
    max_altitude_reached := 0, was_airborne := false }

/-- Embedding of `FlightPhaseTracker._detect_phase`. -/
def detect_phase (tr : Tracker) (t : SimTelemetry) : FlightPhase :=
  if t.on_ground then
    if t.ias < 10 then
      if tr.was_airborne then .TAXI_IN else .PARKED
    else if t.ias < tr.thresholds.taxi_speed_max then
      if tr.was_airborne then .TAXI_IN else .TAXI_OUT
    else
      if tr.was_airborne then .LANDING else .TAKEOFF
  else
    if tr.thresholds.climb_vs_threshold < t.vertical_speed then
      if t.altitude_msl < tr.thresholds.departure_altitude_msl then .DEPARTURE else .CRUISE
    else if t.vertical_speed < tr.thresholds.descent_vs_threshold then
      if t.altitude_agl < tr.thresholds.pattern_altitude_agl then .APPROACH else .DESCENT
    else
      if t.altitude_agl < tr.thresholds.pattern_altitude_agl then .APPROACH else .CRUISE

/-- Embedding of `FlightPhaseTracker._transition_to`: commit the phase, clear pending, and
reset the flight history on a transition into `PARKED`. -/
def transition_to (tr : Tracker) (new_phase : FlightPhase) : Tracker :=
  let tr2 := { tr with current_phase := new_phase, pending_phase := none }
  if new_phase = .PARKED then
    { tr2 with max_altitude_reached := 0, was_airborne := false }
  else tr2

/-- The max-altitude and was-airborne bookkeeping of `update` (performed after
phase detection, before the hysteresis logic). -/
def track_flight_stats (tr : Tracker) (t : SimTelemetry) : Tracker :=
  let tr1 :=
    if tr.max_altitude_reached < t.altitude_msl then
      { tr with max_altitude_reached := t.altitude_msl }
    else tr
  if t.on_ground = false then { tr1 with was_airborne := true } else tr1

/-- Embedding of `FlightPhaseTracker.update`: absent or disconnected telemetry returns
`UNKNOWN` untouched; otherwise detection plus the hysteresis protocol.
`now` models the `time.time()` call. -/
def phaseUpdate (tr : Tracker) (tele : Option SimTelemetry) (now : ℚ) :
    Tracker × FlightPhase :=
  match tele with
  | none => (tr, .UNKNOWN)
  | some t =>
    if t.connected = false then (tr, .UNKNOWN)
    else
      let detected := detect_phase tr t
      let tr2 := track_flight_stats tr t
      let tr3 :=
        if detected ≠ tr2.current_phase then
          if tr2.pending_phase = some detected then
            if tr2.thresholds.phase_confirm_time ≤ now - tr2.phase_start_time then
              transition_to tr2 detected
            else tr2
          else { tr2 with pending_phase := some detected, phase_start_time := now }
        else { tr2 with pending_phase := none }
      let tr4 := { tr3 with last_update_time := now }
      (tr4, tr4.current_phase)

/-- Does this `update` call commit a phase transition? (the branch of `update`
that calls `_transition_to`). -/
def commitsB (tr : Tracker) (tele : Option SimTelemetry) (now : ℚ) : Bool :=
  match tele with
  | none => false
  | some t =>
    t.connected &&
      (let d := detect_phase tr t
       decide (d ≠ tr.current_phase) && decide (tr.pending_phase = some d) &&
         decide (tr.thresholds.phase_confirm_time ≤ now - tr.phase_start_time))

/-- Tracker state after the first `n` updates of the input stream `f`
(each element is the telemetry and the time of one `update` call). -/
def statesFrom (tr0 : Tracker) (f : ℕ → Option SimTelemetry × ℚ) : ℕ → Tracker
  | 0 => tr0
  | n + 1 => (phaseUpdate (statesFrom tr0 f n) (f n).1 (f n).2).1

/-! Part 4: the handoff manager (`handoff.py`). -/

/-- ATC facility types. -/
inductive FacilityType
  | UNKNOWN | CLEARANCE | GROUND | TOWER | DEPARTURE
  | APPROACH | CENTER | UNICOM | FLIGHT_SERVICE
deriving DecidableEq, Repr

/-- Embedding of `FacilityType.to_name`. -/
def FacilityType.to_name (ft : FacilityType) (identifier : String) : String :=
  let base :=
    match ft with
    | .CLEARANCE => "Clearance"
    | .GROUND => "Ground"
    | .TOWER => "Tower"
    | .DEPARTURE => "Departure"
    | .APPROACH => "Approach"
    | .CENTER => "Center"
    | .UNICOM => "Traffic"
    | .FLIGHT_SERVICE => "Radio"
    | .UNKNOWN => "ATC"
  if identifier ≠ "" then identifier ++ " " ++ base else base

/-- The `Facility` dataclass. -/
structure Facility where
  type : FacilityType
  identifier : String
  frequency : String
deriving DecidableEq, Repr

/-- Embedding of the `Facility.name` property. -/
def Facility.name (f : Facility) : String :=
  f.type.to_name f.identifier

/-- State of a `HandoffManager`. -/
structure HandoffManager where
  current_facility : Option Facility
  departure_airport : Option String
  arrival_airport : Option String
  last_handoff_altitude : ℚ
  handoff_history : List (String × String)
deriving DecidableEq, Repr

/-- A freshly constructed manager. -/
def initHandoff : HandoffManager :=
  { current_facility := none, departure_airport := none, arrival_airport := none,
    last_handoff_altitude := 0, handoff_history := [] }

/-- Python `s.lower()` (ASCII). -/
def pyLower (s : String) : List Char :=
  s.toList.map Char.toLower

/-- Embedding of `HandoffManager._determine_expected_facility`: the phase-name/altitude
band rules.  The sequential `if`/`return` structure of the source falls
through exactly as this `if`-chain does. -/
def determine_expected_facility (m : HandoffManager) (phase : String) (altitude : ℚ)
    (on_ground : Bool) : Option Facility :=
  let pl := pyLower phase
  if on_ground && (scanHasCS ("parked").toList pl || scanHasCS ("taxi").toList pl) then
    some { type := .GROUND, identifier := m.departure_airport.getD (""), frequency := "121.900" }
  else if (scanHasCS ("takeoff").toList pl || scanHasCS ("departure").toList pl)
      && altitude < 3000 then
    some { type := .TOWER, identifier := m.departure_airport.getD (""), frequency := "118.300" }
  else if (scanHasCS ("takeoff").toList pl || scanHasCS ("departure").toList pl)
      && altitude < 10000 then
    some { type := .DEPARTURE, identifier := "", frequency := "124.000" }
  else if scanHasCS ("cruise").toList pl || 18000 < altitude then
    some { type := .CENTER, identifier := "", frequency := "127.750" }
  else if scanHasCS ("descent").toList pl || scanHasCS ("approach").toList pl then
    if 10000 < altitude then
      some { type := .CENTER, identifier := "", frequency := "127.750" }
    else
      some { type := .APPROACH, identifier := "", frequency := "124.350" }
  else none

/-- Embedding of `HandoffManager.update`: transition (recording history, updating the
current facility, returning "Contact {name} on {frequency}") exactly when the
expected facility exists and its type differs from the current one (or none is
set). -/
def handoff_update (m : HandoffManager) (tele : Option SimTelemetry) (flight_phase : String) :
    Option String × HandoffManager :=
  match tele with
  | none => (none, m)
  | some t =>
    if t.connected = false then (none, m)
    else
      match determine_expected_facility m flight_phase t.altitude_msl t.on_ground with
      | none => (none, m)
      | some f =>
        let need :=
          match m.current_facility with
          | none => true
          | some cf => decide (f.type ≠ cf.type)
        if need then
          let from_name :=
            match m.current_facility with
            | none => "frequency"
            | some cf => cf.name
          (some ("Contact " ++ f.name ++ " on " ++ f.frequency),
           { m with
             current_facility := some f,
             last_handoff_altitude := t.altitude_msl,
             handoff_history := m.handoff_history ++ [(from_name, f.name)] })
        else (none, m)

/-! Part 5: the squawk handler (`squawk.py`). -/

/-- Classification of transponder codes. -/
inductive SquawkType
  | NORMAL | VFR | STANDBY | HIJACK | NORDO | EMERGENCY
deriving DecidableEq, Repr

/-- The `SquawkInfo` dataclass. -/
structure SquawkInfo where
  code : String
  type : SquawkType
  description : String
  is_emergency : Bool
  atc_response_required : Bool
deriving DecidableEq, Repr

/-- State of a `SquawkHandler`. -/
structure SquawkHandler where
  current_code : String
  last_emergency : Option SquawkInfo
  assigned_code : Option String
deriving DecidableEq, Repr

/-- A freshly constructed handler (default VFR code). -/
def initSquawk : SquawkHandler :=
  { current_code := "1200", last_emergency := none, assigned_code := none }

/-- Embedding of `SquawkHandler._normalize_code`: keep octal digits only, left-pad with
zeros to four characters, truncate to four. -/
def normalize_code (code : String) : String :=
  let digits := code.toList.filter fun c => '0' ≤ c && c ≤ '7'
  String.mk ((List.replicate (4 - digits.length) '0' ++ digits).take 4)

/-- Embedding of `SquawkHandler.validate_code`: strip, then require exactly four
characters, all digits, none of them 8 or 9. -/
def validate_code (code : String) : Bool × String :=
  let c := pyStrip code.toList
  if c.length ≠ 4 then
    (false, "Squawk must be 4 digits, got " ++ toString c.length)
  else if !(c.all isAsciiDigit) then
    (false, "Squawk must be numeric")
  else if c.any fun d => d = '8' || d = '9' then
    (false, "Squawk codes are octal (0-7 only)")
  else (true, "")

/-- Embedding of `SquawkHandler.set_assigned_code`: assign only when validation passes.
The Python method body has no `return` statement, so every call returns
`None` to its caller; that caller-visible value is modelled as the `Unit`
component of the result. -/
def set_assigned_code (h : SquawkHandler) (code : String) : SquawkHandler × Unit :=
  if (validate_code code).1 then
    ({ h with assigned_code := some (normalize_code code) }, ())
  else (h, ())

/-! Part 6: the streaming consumer (`streaming_llm.py`). -/

/-- One parsed line of the backend stream: the token (`response` field) and
the completion flag (`done` field). -/
structure StreamLine where
  response : String
  done : Bool
deriving DecidableEq, Repr

/-- A chunk of streamed response (the `StreamChunk` dataclass; the latency
instrumentation field records wall-clock time and is not modelled). -/
structure StreamChunk where
  text : String
  is_final : Bool
deriving DecidableEq, Repr

/-- Chunking configuration of `StreamingLLM`. -/
structure StreamConfig where
  min_chunk_chars : ℕ
  max_chunk_chars : ℕ
deriving DecidableEq, Repr

/-- The `PHRASE_BOUNDARIES` character class `[.!?,;:\n]`. -/
def PHRASE_BOUNDARIES : List Char :=
  ['.', '!', '?', ',', ';', ':', '\n']

/-- Does the buffer contain a phrase boundary? -/
def hasBoundaryChar (s : List Char) : Bool :=
  s.any fun c => PHRASE_BOUNDARIES.contains c

/-- Embedding of `StreamingLLM._should_emit_chunk`. -/
def should_emit_chunk (cfg : StreamConfig) (buffer : List Char) (is_done : Bool) : Bool :=
  if is_done then true
  else if cfg.max_chunk_chars ≤ buffer.length then true
  else if cfg.min_chunk_chars ≤ buffer.length && hasBoundaryChar buffer then true
  else false

/-- The token-consuming loop of `StreamingLLM.generate_stream`: accumulate
each non-empty token into the buffer, emit a stripped chunk (final iff the
line carried the done flag) when `_should_emit_chunk` fires, and on the done
line flush any residual buffer whose stripped text is non-empty as a final
chunk, then stop. -/
def processLines (cfg : StreamConfig) (buffer : List Char) : List StreamLine → List StreamChunk
  | [] => []
  | l :: ls =>
    let step : List StreamChunk × List Char :=
      if l.response ≠ "" then
        let b := buffer ++ l.response.toList
        if should_emit_chunk cfg b l.done then
          ([{ text := String.mk (pyStrip b), is_final := l.done }], [])
        else ([], b)
      else ([], buffer)
    if l.done then
      step.1 ++
        (if pyStrip step.2 ≠ [] then
          [{ text := String.mk (pyStrip step.2), is_final := true }]
        else [])
    else step.1 ++ processLines cfg step.2 ls

/-- The streaming test vector: the token sequence
"Cessna 1 2 3 , taxi to runway 2 8 ." delivered token by token, the backend
marking completion on the final token line. -/
def demoLines : List StreamLine :=
  (["Cessna", " 1", " 2", " 3", " ,", " taxi", " to", " runway", " 2", " 8"].map
    fun t => { response := t, done := false }) ++ [{ response := " .", done := true }]

/-! Part 7: concrete scenarios used by the claim theorems. -/

/-- Thresholds record `PhaseThresholds()` with all defaults. -/
def defaultThresholds : PhaseThresholds := {}

/-- Parked telemetry: on the ground, stationary. -/
def teleParked : SimTelemetry :=
  { connected := true, on_ground := true, ias := 0, vertical_speed := 0,
    altitude_msl := 0, altitude_agl := 0 }

/-- Ground roll at 45 kt: above `taxi_speed_max` (40) but below the documented
`takeoff_speed_min` (50). -/
def teleFastGround : SimTelemetry :=
  { connected := true, on_ground := true, ias := 45, vertical_speed := 0,
    altitude_msl := 0, altitude_agl := 0 }

/-- Disconnected telemetry sample. -/
def teleDisc : SimTelemetry :=
  { connected := false, on_ground := true, ias := 0, vertical_speed := 0,
    altitude_msl := 0, altitude_agl := 0 }

/-- Telemetry stream: parked long enough to commit `PARKED`, then a 45 kt
ground roll long enough to commit the next phase. -/
def demoInputs : ℕ → Option SimTelemetry × ℚ := fun n =>
  match n with
  | 0 => (some teleParked, 0)
  | 1 => (some teleParked, 5)
  | 2 => (some teleFastGround, 10)
  | _ => (some teleFastGround, 14)

/-- Cruise telemetry for the handoff scenario. -/
def teleCruise : SimTelemetry :=
  { connected := true, on_ground := false, ias := 110, vertical_speed := 0,
    altitude_msl := 20000, altitude_agl := 18000 }

/-- Approach telemetry for the handoff scenario. -/
def teleApp : SimTelemetry :=
  { connected := true, on_ground := false, ias := 90, vertical_speed := -500,
    altitude_msl := 8000, altitude_agl := 6000 }

/-- An abstract fingerprint function for the cache scenario. -/
def fpDemo : String → String := fun _ => "abc12345"

/-- A freshly constructed cache (defaults: capacity 20, TTL 300 s). -/
def cacheDemo0 : SpecCache :=
  { max_cache_size := 20, ttl_seconds := 300, cache := [],
    stats := { hits := 0, misses := 0, generations := 0, invalidations := 0 },
    current_context_hash := "", generation_queue := [] }

/-- The cache after its first `update_context` (fingerprint change from
`""` to `"abc12345"`). -/
def cacheDemo1 : SpecCache :=
  update_context fpDemo cacheDemo0 .TAXI_OUT ("KSMF") "28" "N12345" "121.900"

/-- Chunking configuration of the streaming test vector. -/
def streamCfg : StreamConfig :=
  { min_chunk_chars := 5, max_chunk_chars := 100 }

/-! Part 8: helper lemmas and the claim theorems. -/

/-- A filter is empty exactly when no element satisfies the predicate. -/
theorem filter_isEmpty_iff {α : Type} (p : α → Bool) (l : List α) :
    (l.filter p).isEmpty = true ↔ ∀ x ∈ l, p x = false := by
  simp [List.isEmpty_iff, List.filter_eq_nil_iff]

/-- A filter keeping some member is not empty. -/
theorem filter_not_isEmpty {α : Type} {p : α → Bool} {l : List α} {x : α}
    (hx : x ∈ l) (hp : p x = true) : (l.filter p).isEmpty = false := by
  rcases h : (l.filter p).isEmpty with _ | _
  · rfl
  · rw [filter_isEmpty_iff] at h
    rw [h x hx] at hp
    cases hp

/-- The head pattern of the suspicious loop contributes its message when it
matches. -/
theorem mem_applySuspicious_head (m : List Char → Option ℕ) (d : String)
    (ps : List ((List Char → Option ℕ) × String)) (s : List Char)
    (h : scanHas m s = true) :
    ("Contains " ++ d) ∈ (applySuspicious ((m, d) :: ps) s).2 := by
  simp [applySuspicious, h]

/-- Field view of `validate_atc_response` on a non-empty input. -/
theorem validate_fields (s : String) (h : s ≠ "") :
    validate_atc_response s =
      { valid := ((issuesOf s).filter fun i => isCritical i).isEmpty,
        cleaned_response :=
          if (cleanedTextOf s).isEmpty then ("Say again") else String.mk (cleanedTextOf s),
        issues := issuesOf s,
        original_response := String.mk (pyStrip s.toList),
        warnings := warningsOf s } := by
  simp [validate_atc_response, h]

/-- A matching control-token pattern contributes a fatal issue. -/
theorem controlTok_issue_mem (s : String)
    (h : scanHas matchControlTok (pyStrip s.toList) = true) :
    "Contains LLM control token" ∈ issuesOf s := by
  unfold issuesOf susIssues suspiciousPatterns
  apply List.mem_append_left
  apply List.mem_append_left
  exact mem_applySuspicious_head matchControlTok ("LLM control token") _ _ h

/-- C1, amended.  For every input, `validate_atc_response` returns
`valid = true` iff none of the recorded issues contains one of the five fatal
keywords ("LLM control", "System prompt", "Script tag", "Empty",
"too short"); critical issues outside that subset (invalid squawk codes,
unrealistic altitudes, instruction markers, code fences, ...) are recorded but
do not by themselves invalidate.  In particular an input whose stripped text
contains an LLM control token `<|...|>` is always invalid. -/
theorem claim1_always_fatal_subset (s : String) :
    ((validate_atc_response s).valid = true ↔
      ∀ i ∈ (validate_atc_response s).issues, isCritical i = false) ∧
    (scanHas matchControlTok (pyStrip s.toList) = true →
      (validate_atc_response s).valid = false) := by
  by_cases h : s = ""
  · subst h
    constructor
    · constructor
      · intro hv
        cases hv
      · intro hall
        have := hall ("Empty response") (by decide)
        cases this
    · intro hscan
      cases hscan
  · rw [validate_fields s h]
    constructor
    · exact filter_isEmpty_iff _ _
    · intro hscan
      exact filter_not_isEmpty (controlTok_issue_mem s hscan) (by decide)

/-- C1 witness: a concrete control-token input is rejected. -/
theorem claim1_witness :
    (validate_atc_response ("<|end|> Cessna radio check")).valid = false :=
  (claim1_always_fatal_subset ("<|end|> Cessna radio check")).2 (by decide)

/-- C1 counterexample: the claim says every input containing an instruction
marker such as `[INST]` is invalid, but the code records the instruction-marker
issue without invalidating (the fatal-keyword filter does not match it). -/
theorem claim1_instruction_marker_not_fatal :
    (validate_atc_response ("[INST] Sacramento Tower radio check")).valid = true ∧
    "Contains Instruction marker" ∈
      (validate_atc_response ("[INST] Sacramento Tower radio check")).issues := by
  constructor
  · decide
  · decide

/-- C5, amended.  The validator test vectors as the code computes them:
`validate("Squawk 8521")` records the "Invalid squawk" issue but, since
numeric anomalies are outside the always-fatal subset, still returns
`valid = true`; `validate("")` is invalid with "Empty response"; the normal
response is valid with no issues. -/
theorem claim5_validator_vectors :
    validate_atc_response ("Squawk 8521") =
      { valid := true, cleaned_response := "Squawk 8521",
        issues := ["Invalid squawk code (contains 8 or 9): 8521"],
        original_response := "Squawk 8521", warnings := [] } ∧
    validate_atc_response ("") =
      { valid := false, cleaned_response := "", issues := ["Empty response"],
        original_response := "", warnings := [] } ∧
    validate_atc_response ("Cessna 12345, squawk 4521, radar contact") =
      { valid := true, cleaned_response := "Cessna 12345, squawk 4521, radar contact",
        issues := [],
        original_response := "Cessna 12345, squawk 4521, radar contact",
        warnings := [] } := by
  refine ⟨by decide, by decide, by decide⟩

/-- C5 counterexample: the claim says `validate("Squawk 8521")` returns
`valid = false`, but the code returns `valid = true` (the invalid-squawk
issue is not in the fatal subset; the repository test for this vector
checks only the issue list, not validity). -/
theorem claim5_squawk_8521_still_valid :
    (validate_atc_response ("Squawk 8521")).valid = true := by
  decide

/-- C10, amended.  For every *non-empty* input, the cleaned response is
non-empty: when cleanup reduces the text to nothing, "Say again" is
substituted and the result is invalid via the too-short issue.  (The
empty-input early return yields an empty `cleaned_response`, see the
counterexample.) -/
theorem claim10_nonempty_cleaned (s : String) (h : s ≠ "") :
    (validate_atc_response s).cleaned_response ≠ "" ∧
    (cleanedTextOf s = [] →
      (validate_atc_response s).cleaned_response = "Say again" ∧
      (validate_atc_response s).valid = false) := by
  rw [validate_fields s h]
  constructor
  · by_cases hct : (cleanedTextOf s).isEmpty = true
    · simp only [hct, if_pos]
      decide
    · simp only [hct]
      simp only [if_neg, Bool.false_eq_true, not_false_iff]
      intro hmk
      have : (String.mk (cleanedTextOf s)).data = ("" : String).data := by rw [hmk]
      simp at this
      rw [this] at hct
      simp at hct
  · intro hct
    constructor
    · simp [hct]
    · have hshort : "Response too short" ∈ issuesOf s := by
        unfold issuesOf
        apply List.mem_append_right
        rw [hct]
        simp
      exact filter_not_isEmpty hshort (by decide)

/-- C10 witness: a whitespace-only input cleans to nothing and gets the
"Say again" substitution. -/
theorem claim10_witness :
    (validate_atc_response ("  ")).cleaned_response = "Say again" ∧
    (validate_atc_response ("  ")).valid = false :=
  (claim10_nonempty_cleaned ("  ") (by decide)).2 (by decide)

/-- C10 counterexample: the claim quantifies over every input string, but the
empty-input early return constructs the result with an empty
`cleaned_response` rather than "Say again". -/
theorem claim10_empty_input_empty_cleaned :
    (validate_atc_response ("")).cleaned_response = "" := by
  decide

/-- C8, amended.  `validate_code` strips surrounding whitespace and then
accepts exactly the strings of four digits with no 8 or 9 (so "4591" is
invalid and "4521" valid); `set_assigned_code` mutates the assigned code only
when validation passes, leaves all state unchanged on invalid input, and
returns the same `None` to its caller in both cases (success or failure is
not reported back; callers must consult `get_assigned_code`). -/
theorem claim8_validate_and_assign :
    (∀ code : String,
      (validate_code code).1 = true ↔
        ((pyStrip code.toList).length = 4 ∧
         (∀ c ∈ pyStrip code.toList, isAsciiDigit c = true) ∧
         (∀ c ∈ pyStrip code.toList, c ≠ '8' ∧ c ≠ '9'))) ∧
    (validate_code ("4591")).1 = false ∧
    (validate_code ("4521")).1 = true ∧
    (∀ (h : SquawkHandler) (code : String),
      ((validate_code code).1 = false → set_assigned_code h code = (h, ())) ∧
      ((validate_code code).1 = true →
        (set_assigned_code h code).1 =
          { h with assigned_code := some (normalize_code code) }) ∧
      (set_assigned_code h code).2 = ()) := by
  refine ⟨?_, by decide, by decide, ?_⟩
  · intro code
    unfold validate_code
    by_cases h4 : (pyStrip code.toList).length = 4
    · rw [if_neg (by omega)]
      by_cases hd : (pyStrip code.toList).all isAsciiDigit = true
      · rw [hd]
        simp only [Bool.not_true]
        rw [if_neg (by simp)]
        by_cases h89 : (pyStrip code.toList).any (fun d => d = '8' || d = '9') = true
        · rw [if_pos h89]
          apply iff_of_false (by simp)
          rintro ⟨-, -, hno⟩
          rw [List.any_eq_true] at h89
          obtain ⟨c, hc, hc89⟩ := h89
          rcases hno c hc with ⟨h8, h9⟩
          rcases Bool.or_eq_true _ _ |>.mp hc89 with hcc | hcc
          · exact h8 (by simpa using hcc)
          · exact h9 (by simpa using hcc)
        · rw [if_neg h89]
          apply iff_of_true rfl
          refine ⟨h4, List.all_eq_true.mp hd, ?_⟩
          intro c hc
          constructor
          · intro hc8
            exact h89 (List.any_eq_true.mpr ⟨c, hc, by simp [hc8]⟩)
          · intro hc9
            exact h89 (List.any_eq_true.mpr ⟨c, hc, by simp [hc9]⟩)
      · simp only [Bool.not_eq_true] at hd
        rw [hd]
        simp only [Bool.not_false]
        rw [if_pos trivial]
        apply iff_of_false (by simp)
        rintro ⟨-, hall, -⟩
        rw [← List.all_eq_true] at hall
        rw [hall] at hd
        cases hd
    · rw [if_pos h4]
      apply iff_of_false (by simp)
      rintro ⟨hl, -, -⟩
      exact h4 hl
  · intro h code
    refine ⟨?_, ?_, rfl⟩
    · intro hv
      unfold set_assigned_code
      rw [hv]
      simp
    · intro hv
      unfold set_assigned_code
      rw [hv]
      simp

/-- C8 witness: a failed assignment leaves the handler untouched. -/
theorem claim8_witness :
    set_assigned_code initSquawk ("4591") = (initSquawk, ()) :=
  ((claim8_validate_and_assign.2.2.2 initSquawk ("4591")).1 (by decide))

/-- C8 counterexample: `validate_code " 4521"` accepts a five-character string
(the code strips before checking), and `set_assigned_code` returns the same
value to its caller for a successful and a failed assignment, so it does not
report success or failure. -/
theorem claim8_counterexample :
    (validate_code (" 4521")).1 = true ∧ (" 4521" : String).length ≠ 4 ∧
    (set_assigned_code initSquawk ("4521")).2 = (set_assigned_code initSquawk ("4591")).2 ∧
    (set_assigned_code initSquawk ("4591")).1 = initSquawk ∧
    (set_assigned_code initSquawk ("4521")).1 ≠ initSquawk := by
  refine ⟨by decide, by decide, rfl, by decide, by decide⟩

/-- C6.  The handoff scenario: with no current facility, cruise at 20000 ft
expects Center (and the first update hands off to it); the subsequent
approach/8000 ft update transitions to Approach, returning the non-empty
"Contact {facility name} on {frequency}" phraseology and appending the
(from, to) pair to the history; repeating the same inputs returns none and
changes nothing. -/
theorem claim6_handoff_sequence :
    determine_expected_facility initHandoff ("cruise") 20000 false =
      some { type := FacilityType.CENTER, identifier := "", frequency := "127.750" } ∧
    (handoff_update initHandoff (some teleCruise) "cruise").2.current_facility =
      some { type := FacilityType.CENTER, identifier := "", frequency := "127.750" } ∧
    (let m1 := (handoff_update initHandoff (some teleCruise) "cruise").2
     let r2 := handoff_update m1 (some teleApp) "approach"
     r2.1 = some ("Contact " ++
         Facility.name { type := FacilityType.APPROACH, identifier := "", frequency := "124.350" }
         ++ " on " ++ "124.350") ∧
     r2.1 ≠ some ("") ∧
     r2.2.current_facility =
       some { type := FacilityType.APPROACH, identifier := "", frequency := "124.350" } ∧
     r2.2.handoff_history = m1.handoff_history ++ [("Center", "Approach")] ∧
     handoff_update r2.2 (some teleApp) "approach" = (none, r2.2)) := by
  refine ⟨by decide, by decide, by decide, by decide, by decide, by decide, by decide⟩

/-- C4.  Streaming: the test-vector token sequence with
`min_chunk_chars = 5`, `max_chunk_chars = 100` yields exactly one non-final
chunk ending at the comma and one final chunk ending at the period (boundary
characters retained); and for every stream, a done line flushes the residual
buffer (token included) as a single final chunk whenever its stripped text is
non-empty, regardless of the minimum-length threshold. -/
theorem claim4_stream_chunking :
    processLines streamCfg [] demoLines =
      [{ text := "Cessna 1 2 3 ,", is_final := false },
       { text := "taxi to runway 2 8 .", is_final := true }] ∧
    ∀ (cfg : StreamConfig) (buffer : List Char) (l : StreamLine) (ls : List StreamLine),
      l.done = true → pyStrip (buffer ++ l.response.toList) ≠ [] →
      processLines cfg buffer (l :: ls) =
        [{ text := String.mk (pyStrip (buffer ++ l.response.toList)), is_final := true }] := by
  constructor
  · decide
  · intro cfg buffer l ls hdone hres
    by_cases hr : l.response = ""
    · have htl : l.response.toList = [] := by rw [hr]; rfl
      rw [htl, List.append_nil] at hres
      simp [processLines, hr, hdone, htl, List.append_nil, hres]
    · simp [processLines, hr, hdone, should_emit_chunk, hres, pyStrip]

/-- C4 witness: a below-minimum residual buffer is still flushed as a final
chunk on the done line. -/
theorem claim4_witness :
    processLines streamCfg ("ab").toList [{ response := "", done := true }] =
      [{ text := String.mk (pyStrip ("ab".toList ++ ("" : String).toList)),
         is_final := true }] :=
  claim4_stream_chunking.2 streamCfg ("ab").toList { response := "", done := true } []
    rfl (by decide)

/-- The stats bookkeeping does not touch the phase fields. -/
theorem tfs_current (tr : Tracker) (t : SimTelemetry) :
    (track_flight_stats tr t).current_phase = tr.current_phase := by
  simp only [track_flight_stats]
  split <;> split <;> rfl

/-- The stats bookkeeping does not touch the pending phase. -/
theorem tfs_pending (tr : Tracker) (t : SimTelemetry) :
    (track_flight_stats tr t).pending_phase = tr.pending_phase := by
  simp only [track_flight_stats]
  split <;> split <;> rfl

/-- The stats bookkeeping does not touch the phase-start timestamp. -/
theorem tfs_start (tr : Tracker) (t : SimTelemetry) :
    (track_flight_stats tr t).phase_start_time = tr.phase_start_time := by
  simp only [track_flight_stats]
  split <;> split <;> rfl

/-- The stats bookkeeping does not touch the thresholds. -/
theorem tfs_thresholds (tr : Tracker) (t : SimTelemetry) :
    (track_flight_stats tr t).thresholds = tr.thresholds := by
  simp only [track_flight_stats]
  split <;> split <;> rfl

/-- The committed phase after a transition. -/
theorem transition_current (tr : Tracker) (p : FlightPhase) :
    (transition_to tr p).current_phase = p := by
  simp only [transition_to]
  split <;> rfl

/-- A transition clears the pending phase. -/
theorem transition_pending (tr : Tracker) (p : FlightPhase) :
    (transition_to tr p).pending_phase = none := by
  simp only [transition_to]
  split <;> rfl

/-- A transition does not reset the phase-start timestamp. -/
theorem transition_start (tr : Tracker) (p : FlightPhase) :
    (transition_to tr p).phase_start_time = tr.phase_start_time := by
  simp only [transition_to]
  split <;> rfl

/-- A transition does not change the thresholds. -/
theorem transition_thresholds (tr : Tracker) (p : FlightPhase) :
    (transition_to tr p).thresholds = tr.thresholds := by
  simp only [transition_to]
  split <;> rfl

/-- Absent or disconnected telemetry leaves the tracker untouched and returns
`UNKNOWN`. -/
theorem phaseUpdate_skip (tr : Tracker) (tele : Option SimTelemetry) (now : ℚ)
    (h : tele = none ∨ ∃ t, tele = some t ∧ t.connected = false) :
    phaseUpdate tr tele now = (tr, FlightPhase.UNKNOWN) := by
  rcases h with h | ⟨t, ht, hc⟩
  · rw [h]
    rfl
  · rw [ht]
    simp [phaseUpdate, hc]

/-- The hysteresis step of `update` on connected telemetry, phrased on the
fields of the pre-state. -/
theorem phaseUpdate_some (tr : Tracker) (t : SimTelemetry) (now : ℚ)
    (hc : t.connected = true) :
    (phaseUpdate tr (some t) now).1 =
      { (if detect_phase tr t ≠ tr.current_phase then
           if tr.pending_phase = some (detect_phase tr t) then
             if tr.thresholds.phase_confirm_time ≤ now - tr.phase_start_time then
               transition_to (track_flight_stats tr t) (detect_phase tr t)
             else track_flight_stats tr t
           else { track_flight_stats tr t with
                  pending_phase := some (detect_phase tr t), phase_start_time := now }
         else { track_flight_stats tr t with pending_phase := none })
        with last_update_time := now } := by
  simp only [phaseUpdate, hc, Bool.true_eq_false, if_false,
    tfs_current, tfs_pending, tfs_start, tfs_thresholds]

/-- What a true `commitsB` means. -/
theorem commitsB_elim (tr : Tracker) (tele : Option SimTelemetry) (now : ℚ)
    (h : commitsB tr tele now = true) :
    ∃ t, tele = some t ∧ t.connected = true ∧
      detect_phase tr t ≠ tr.current_phase ∧
      tr.pending_phase = some (detect_phase tr t) ∧
      tr.thresholds.phase_confirm_time ≤ now - tr.phase_start_time := by
  rcases tele with _ | t
  · cases h
  · refine ⟨t, rfl, ?_⟩
    simp only [commitsB, Bool.and_eq_true, decide_eq_true_eq] at h
    obtain ⟨hc, ⟨h1, h2⟩, h3⟩ := h
    exact ⟨hc, h1, h2, h3⟩

/-- A committing update clears the pending phase and commits the detected
phase. -/
theorem commit_result (tr : Tracker) (tele : Option SimTelemetry) (now : ℚ)
    (h : commitsB tr tele now = true) :
    (phaseUpdate tr tele now).1.pending_phase = none ∧
    ∃ t, tele = some t ∧
      (phaseUpdate tr tele now).1.current_phase = detect_phase tr t := by
  obtain ⟨t, hte, hc, hne, hp, hel⟩ := commitsB_elim tr tele now h
  subst hte
  rw [phaseUpdate_some tr t now hc]
  rw [if_pos hne, if_pos hp, if_pos hel]
  exact ⟨transition_pending _ _, t, rfl, transition_current _ _⟩

/-- Invariant used for the anti-flicker proof: either nothing is pending or
the pending phase was proposed no earlier than `tc`. -/
def PendInv (tc : ℚ) (s : Tracker) : Prop :=
  s.pending_phase = none ∨ tc ≤ s.phase_start_time

/-- One update preserves `PendInv` when its clock is at least `tc`. -/
theorem pendInv_step (tc : ℚ) (s : Tracker) (te : Option SimTelemetry) (now : ℚ)
    (hI : PendInv tc s) (hn : tc ≤ now) : PendInv tc (phaseUpdate s te now).1 := by
  rcases te with _ | t
  · rw [phaseUpdate_skip s none now (Or.inl rfl)]
    exact hI
  · by_cases hc : t.connected = true
    · rw [phaseUpdate_some s t now hc]
      by_cases h1 : detect_phase s t ≠ s.current_phase
      · rw [if_pos h1]
        by_cases h2 : s.pending_phase = some (detect_phase s t)
        · rw [if_pos h2]
          by_cases h3 : s.thresholds.phase_confirm_time ≤ now - s.phase_start_time
          · rw [if_pos h3]
            exact Or.inl (transition_pending _ _)
          · rw [if_neg h3]
            rcases hI with hI | hI
            · rw [hI] at h2
              cases h2
            · exact Or.inr (by rw [tfs_start]; exact hI)
        · rw [if_neg h2]
          exact Or.inr hn
      · rw [if_neg h1]
        exact Or.inl rfl
    · rw [phaseUpdate_skip s (some t) now
        (Or.inr ⟨t, rfl, by revert hc; cases t.connected <;> simp⟩)]
      exact hI

/-- Invariant `PendInv` is preserved along the rest of a run whose clocks stay at or
above `tc`. -/
theorem pendInv_many (tr0 : Tracker) (f : ℕ → Option SimTelemetry × ℚ) (tc : ℚ) (i : ℕ)
    (hbase : PendInv tc (statesFrom tr0 f (i + 1)))
    (hclk : ∀ k, i ≤ k → tc ≤ (f k).2) :
    ∀ n, PendInv tc (statesFrom tr0 f (i + 1 + n)) := by
  intro n
  induction n with
  | zero => exact hbase
  | succ n ih =>
    have : i + 1 + (n + 1) = (i + 1 + n) + 1 := by omega
    rw [this]
    exact pendInv_step tc _ _ _ ih (hclk (i + 1 + n) (by omega))

/-- The thresholds record is constant along any run. -/
theorem statesFrom_thresholds (tr0 : Tracker) (f : ℕ → Option SimTelemetry × ℚ) :
    ∀ n, (statesFrom tr0 f n).thresholds = tr0.thresholds := by
  intro n
  induction n with
  | zero => rfl
  | succ n ih =>
    show (phaseUpdate (statesFrom tr0 f n) (f n).1 (f n).2).1.thresholds = tr0.thresholds
    rcases h : (f n).1 with _ | t
    · rw [phaseUpdate_skip _ none _ (Or.inl rfl)]
      exact ih
    · by_cases hc : t.connected = true
      · rw [phaseUpdate_some _ t _ hc]
        show (if _ then _ else _ : Tracker).thresholds = tr0.thresholds
        split
        · split
          · split
            · rw [transition_thresholds, tfs_thresholds]
              exact ih
            · rw [tfs_thresholds]
              exact ih
          · show (track_flight_stats _ t).thresholds = tr0.thresholds
            rw [tfs_thresholds]
            exact ih
        · show (track_flight_stats _ t).thresholds = tr0.thresholds
          rw [tfs_thresholds]
          exact ih
      · rw [phaseUpdate_skip _ (some t) _
          (Or.inr ⟨t, rfl, by revert hc; cases t.connected <;> simp⟩)]
        exact ih

/-- C3.  Anti-flicker: along any update stream with nondecreasing clocks, two
committing updates are separated by at least `phase_confirm_time`; and the
hysteresis protocol step by step: a differing detection becomes pending with
the current timestamp; re-detecting the pending phase before the confirmation
window leaves the timer (and everything committed) unchanged; once the window
has elapsed the transition commits and pending clears; a detection equal to
the current phase clears pending. -/
theorem claim3_phase_commit_separation :
    (∀ (tr0 : Tracker) (f : ℕ → Option SimTelemetry × ℚ),
      (∀ a b : ℕ, a ≤ b → (f a).2 ≤ (f b).2) →
      ∀ i j : ℕ, i < j →
        commitsB (statesFrom tr0 f i) (f i).1 (f i).2 = true →
        commitsB (statesFrom tr0 f j) (f j).1 (f j).2 = true →
        (f i).2 + tr0.thresholds.phase_confirm_time ≤ (f j).2) ∧
    (∀ (tr : Tracker) (t : SimTelemetry) (now : ℚ), t.connected = true →
      (detect_phase tr t ≠ tr.current_phase →
        tr.pending_phase ≠ some (detect_phase tr t) →
        (phaseUpdate tr (some t) now).1.pending_phase = some (detect_phase tr t) ∧
        (phaseUpdate tr (some t) now).1.phase_start_time = now ∧
        (phaseUpdate tr (some t) now).1.current_phase = tr.current_phase) ∧
      (detect_phase tr t ≠ tr.current_phase →
        tr.pending_phase = some (detect_phase tr t) →
        ¬ tr.thresholds.phase_confirm_time ≤ now - tr.phase_start_time →
        (phaseUpdate tr (some t) now).1.pending_phase = tr.pending_phase ∧
        (phaseUpdate tr (some t) now).1.phase_start_time = tr.phase_start_time ∧
        (phaseUpdate tr (some t) now).1.current_phase = tr.current_phase) ∧
      (detect_phase tr t ≠ tr.current_phase →
        tr.pending_phase = some (detect_phase tr t) →
        tr.thresholds.phase_confirm_time ≤ now - tr.phase_start_time →
        (phaseUpdate tr (some t) now).1.current_phase = detect_phase tr t ∧
        (phaseUpdate tr (some t) now).1.pending_phase = none) ∧
      (detect_phase tr t = tr.current_phase →
        (phaseUpdate tr (some t) now).1.pending_phase = none ∧
        (phaseUpdate tr (some t) now).1.current_phase = tr.current_phase)) := by
  constructor
  · intro tr0 f hmono i j hij hci hcj
    obtain ⟨tj, htej, hcj2, hnej, hpj, helj⟩ :=
      commitsB_elim (statesFrom tr0 f j) (f j).1 (f j).2 hcj
    have hbase : PendInv (f i).2 (statesFrom tr0 f (i + 1)) := by
      have := (commit_result (statesFrom tr0 f i) (f i).1 (f i).2 hci).1
      exact Or.inl this
    have hclk : ∀ k, i ≤ k → (f i).2 ≤ (f k).2 := fun k hk => hmono i k hk
    have hIj : PendInv (f i).2 (statesFrom tr0 f j) := by
      have hj : j = i + 1 + (j - i - 1) := by omega
      rw [hj]
      exact pendInv_many tr0 f (f i).2 i hbase hclk (j - i - 1)
    have hstart : (f i).2 ≤ (statesFrom tr0 f j).phase_start_time := by
      rcases hIj with hI | hI
      · rw [hI] at hpj
        cases hpj
      · exact hI
    have hth : (statesFrom tr0 f j).thresholds = tr0.thresholds :=
      statesFrom_thresholds tr0 f j
    rw [hth] at helj
    linarith
  · intro tr t now hc
    refine ⟨?_, ?_, ?_, ?_⟩
    · intro h1 h2
      rw [phaseUpdate_some tr t now hc, if_pos h1, if_neg h2]
      exact ⟨rfl, rfl, tfs_current tr t⟩
    · intro h1 h2 h3
      rw [phaseUpdate_some tr t now hc, if_pos h1, if_pos h2, if_neg h3]
      exact ⟨tfs_pending tr t, tfs_start tr t, tfs_current tr t⟩
    · intro h1 h2 h3
      rw [phaseUpdate_some tr t now hc, if_pos h1, if_pos h2, if_pos h3]
      exact ⟨transition_current _ _, transition_pending _ _⟩
    · intro h1
      rw [phaseUpdate_some tr t now hc, if_neg (by simpa using h1)]
      exact ⟨rfl, tfs_current tr t⟩

/-- C3 witness: a fresh tracker fed parked telemetry at t = 10 makes PARKED
pending with that timestamp, committing nothing yet. -/
theorem claim3_witness :
    (phaseUpdate (initTracker defaultThresholds) (some teleParked) 10).1.pending_phase =
      some FlightPhase.PARKED ∧
    (phaseUpdate (initTracker defaultThresholds) (some teleParked) 10).1.phase_start_time = 10 ∧
    (phaseUpdate (initTracker defaultThresholds) (some teleParked) 10).1.current_phase =
      FlightPhase.UNKNOWN :=
  (claim3_phase_commit_separation.2 (initTracker defaultThresholds) teleParked 10
    (by decide)).1 (by decide) (by decide)


/-- Introduction rule for `commitsB`. -/
theorem commitsB_intro (tr : Tracker) (t : SimTelemetry) (now : ℚ)
    (hc : t.connected = true) (h1 : detect_phase tr t ≠ tr.current_phase)
    (h2 : tr.pending_phase = some (detect_phase tr t))
    (h3 : tr.thresholds.phase_confirm_time ≤ now - tr.phase_start_time) :
    commitsB tr (some t) now = true := by
  simp [commitsB, hc, h1, h2, h3]

/-- State after the first demo update: `PARKED` pending since t = 0. -/
theorem demoState1 :
    statesFrom (initTracker defaultThresholds) demoInputs 1 =
      { thresholds := defaultThresholds, current_phase := .UNKNOWN,
        pending_phase := some .PARKED, phase_start_time := 0,
        last_update_time := 0, max_altitude_reached := 0, was_airborne := false } := by
  show (phaseUpdate (initTracker defaultThresholds) (some teleParked) 0).1 = _
  rw [phaseUpdate_some _ _ _ rfl, if_pos (by decide), if_neg (by decide)]
  decide

/-- State after the second demo update: `PARKED` committed at t = 5. -/
theorem demoState2 :
    statesFrom (initTracker defaultThresholds) demoInputs 2 =
      { thresholds := defaultThresholds, current_phase := .PARKED,
        pending_phase := none, phase_start_time := 0,
        last_update_time := 5, max_altitude_reached := 0, was_airborne := false } := by
  show (phaseUpdate (statesFrom (initTracker defaultThresholds) demoInputs 1)
    (some teleParked) 5).1 = _
  rw [demoState1, phaseUpdate_some _ _ _ rfl, if_pos (by decide), if_pos (by decide),
    if_pos (by norm_num [defaultThresholds])]
  decide

/-- State after the third demo update: `TAKEOFF` pending since t = 10 while
still committed to `PARKED`. -/
theorem demoState3 :
    statesFrom (initTracker defaultThresholds) demoInputs 3 =
      { thresholds := defaultThresholds, current_phase := .PARKED,
        pending_phase := some .TAKEOFF, phase_start_time := 10,
        last_update_time := 10, max_altitude_reached := 0, was_airborne := false } := by
  show (phaseUpdate (statesFrom (initTracker defaultThresholds) demoInputs 2)
    (some teleFastGround) 10).1 = _
  rw [demoState2, phaseUpdate_some _ _ _ rfl, if_pos (by decide), if_neg (by decide)]
  decide

/-- State after the fourth demo update: `TAKEOFF` committed at t = 14. -/
theorem demoState4 :
    statesFrom (initTracker defaultThresholds) demoInputs 4 =
      { thresholds := defaultThresholds, current_phase := .TAKEOFF,
        pending_phase := none, phase_start_time := 10,
        last_update_time := 14, max_altitude_reached := 0, was_airborne := false } := by
  show (phaseUpdate (statesFrom (initTracker defaultThresholds) demoInputs 3)
    (some teleFastGround) 14).1 = _
  rw [demoState3, phaseUpdate_some _ _ _ rfl, if_pos (by decide), if_pos (by decide),
    if_pos (by norm_num [defaultThresholds])]
  decide

/-- C7.  The code commits Parked→Takeoff with `was_airborne = false`, as the
claim says, but at 45 kt: the detection threshold actually used is
`taxi_speed_max` (40 kt), and the documented `takeoff_speed_min` (50 kt) is
never consulted, so the commit happens below the claimed minimum airspeed. -/
theorem claim7_takeoff_commit_below_documented_minimum :
    (statesFrom (initTracker defaultThresholds) demoInputs 3).current_phase =
      FlightPhase.PARKED ∧
    (statesFrom (initTracker defaultThresholds) demoInputs 3).was_airborne = false ∧
    detect_phase (statesFrom (initTracker defaultThresholds) demoInputs 3) teleFastGround =
      FlightPhase.TAKEOFF ∧
    commitsB (statesFrom (initTracker defaultThresholds) demoInputs 3)
      (demoInputs 3).1 (demoInputs 3).2 = true ∧
    (statesFrom (initTracker defaultThresholds) demoInputs 4).current_phase =
      FlightPhase.TAKEOFF ∧
    teleFastGround.ias < defaultThresholds.takeoff_speed_min ∧
    defaultThresholds.taxi_speed_max ≤ teleFastGround.ias := by
  refine ⟨?_, ?_, ?_, ?_, ?_, ?_, ?_⟩
  · rw [demoState3]
  · rw [demoState3]
  · rw [demoState3]
    decide
  · rw [demoState3]
    exact commitsB_intro _ teleFastGround 14 rfl (by decide) (by decide)
      (by norm_num [defaultThresholds])
  · rw [demoState4]
  · norm_num [teleFastGround, defaultThresholds]
  · norm_num [teleFastGround, defaultThresholds]

/-- C9.  Absent or disconnected telemetry returns `UNKNOWN` and is a complete
no-op on the tracker state, so any later connected update behaves exactly as
if the disconnected call had never happened. -/
theorem claim9_disconnected_frame (tr : Tracker) (tele : Option SimTelemetry) (now : ℚ)
    (h : tele = none ∨ ∃ t, tele = some t ∧ t.connected = false) :
    phaseUpdate tr tele now = (tr, FlightPhase.UNKNOWN) ∧
    ∀ (tele2 : Option SimTelemetry) (now2 : ℚ),
      phaseUpdate (phaseUpdate tr tele now).1 tele2 now2 = phaseUpdate tr tele2 now2 := by
  have hskip := phaseUpdate_skip tr tele now h
  refine ⟨hskip, ?_⟩
  intro tele2 now2
  rw [hskip]

/-- C9 witness: a disconnected sample is dropped without touching a tracker
that has already committed PARKED. -/
theorem claim9_witness :
    phaseUpdate (statesFrom (initTracker defaultThresholds) demoInputs 2)
        (some teleDisc) 7 =
      (statesFrom (initTracker defaultThresholds) demoInputs 2, FlightPhase.UNKNOWN) :=
  (claim9_disconnected_frame _ (some teleDisc) 7 (Or.inr ⟨teleDisc, rfl, rfl⟩)).1

/-- Lookup misses when the key is absent. -/
theorem alookup_eq_none (k : String) (l : List (String × CachedResponse))
    (h : k ∉ l.map Prod.fst) : alookup k l = none := by
  induction l with
  | nil => rfl
  | cons x xs ih =>
    rcases x with ⟨k2, v⟩
    simp only [List.map_cons, List.mem_cons] at h
    push_neg at h
    simp only [alookup]
    rw [if_neg (fun hk => h.1 hk.symm)]
    exact ih h.2

/-- Deleting a key removes it for good when the keys are distinct. -/
theorem alookup_aerase (k : String) (l : List (String × CachedResponse))
    (hnd : (l.map Prod.fst).Nodup) : alookup k (aerase k l) = none := by
  induction l with
  | nil => rfl
  | cons x xs ih =>
    rcases x with ⟨k2, v⟩
    simp only [List.map_cons, List.nodup_cons] at hnd
    simp only [aerase]
    by_cases hk : k2 = k
    · rw [if_pos hk]
      subst hk
      exact alookup_eq_none k2 xs hnd.1
    · rw [if_neg hk]
      simp only [alookup]
      rw [if_neg hk]
      exact ih hnd.2

/-- Lookup at the head of the association list. -/
theorem alookup_cons_self (k : String) (v : CachedResponse)
    (l : List (String × CachedResponse)) : alookup k ((k, v) :: l) = some v := by
  simp [alookup]

/-- C2.  `get` serves the stored text exactly when the entry exists, is within
TTL, and carries the live fingerprint (counting a hit); in every other case it
returns none and counts a miss, a TTL-expired entry being lazily evicted by
the access; a context change through `update_context` clears the whole cache,
after which `get` returns none for every intent until a background generation
stores a response under the new fingerprint, which `get` then serves within
its TTL. -/
theorem claim2_cache_servability :
    (∀ (st : SpecCache) (now : ℚ) (k : String) (e : CachedResponse),
      alookup k st.cache = some e →
      now - e.generated_at ≤ st.ttl_seconds →
      e.context_hash = st.current_context_hash →
      (cacheGet st now k).1 = some e.response_text ∧
      (cacheGet st now k).2.stats.hits = st.stats.hits + 1 ∧
      (cacheGet st now k).2.stats.misses = st.stats.misses) ∧
    (∀ (st : SpecCache) (now : ℚ) (k : String), ¬ servable st now k →
      (cacheGet st now k).1 = none ∧
      (cacheGet st now k).2.stats.misses = st.stats.misses + 1 ∧
      (cacheGet st now k).2.stats.hits = st.stats.hits) ∧
    (∀ (st : SpecCache) (now : ℚ) (k : String) (e : CachedResponse),
      (st.cache.map Prod.fst).Nodup →
      alookup k st.cache = some e →
      st.ttl_seconds < now - e.generated_at →
      alookup k (cacheGet st now k).2.cache = none) ∧
    (∀ (fp : String → String) (st : SpecCache) (phase : CachePhase)
        (airport runway callsign frequency : String),
      fp (contextString phase airport runway callsign frequency) ≠ st.current_context_hash →
      (update_context fp st phase airport runway callsign frequency).cache = [] ∧
      (update_context fp st phase airport runway callsign frequency).current_context_hash =
        fp (contextString phase airport runway callsign frequency) ∧
      ∀ (k : String) (now : ℚ),
        (cacheGet (update_context fp st phase airport runway callsign frequency) now k).1 =
          none) ∧
    (∀ (st : SpecCache) (now t : ℚ) (k p resp : String) (ph : CachePhase),
      st.cache = [] → 1 ≤ st.max_cache_size → resp ≠ "" → t - now ≤ st.ttl_seconds →
      (cacheGet (generate_and_cache st now k p ph resp) t k).1 = some resp) := by
  refine ⟨?_, ?_, ?_, ?_, ?_⟩
  · intro st now k e he h1 h2
    simp only [cacheGet, he]
    rw [if_neg (not_lt.mpr h1), if_neg (not_not_intro h2)]
    exact ⟨rfl, rfl, rfl⟩
  · intro st now k hns
    rcases h : alookup k st.cache with _ | e
    · simp only [cacheGet, h]
      exact ⟨True.intro, True.intro, True.intro⟩
    · have hnb : ¬ (now - e.generated_at ≤ st.ttl_seconds ∧
          e.context_hash = st.current_context_hash) :=
        fun hh => hns ⟨e, h, hh.1, hh.2⟩
      by_cases httl : st.ttl_seconds < now - e.generated_at
      · simp only [cacheGet, h]
        rw [if_pos httl]
        exact ⟨rfl, rfl, rfl⟩
      · have hle : now - e.generated_at ≤ st.ttl_seconds := not_lt.mp httl
        have hhash : e.context_hash ≠ st.current_context_hash :=
          fun hh => hnb ⟨hle, hh⟩
        simp only [cacheGet, h]
        rw [if_neg httl, if_pos hhash]
        exact ⟨rfl, rfl, rfl⟩
  · intro st now k e hnd he hl
    simp only [cacheGet, he]
    rw [if_pos hl]
    exact alookup_aerase k st.cache hnd
  · intro fp st phase airport runway callsign frequency hne
    refine ⟨?_, ?_, ?_⟩
    · simp only [update_context]
      rw [if_pos hne]
    · simp only [update_context]
      rw [if_pos hne]
    · intro k now
      simp only [update_context]
      rw [if_pos hne]
      simp only [cacheGet, alookup]
  · intro st now t k p resp ph hc hmax hr httl
    simp only [generate_and_cache]
    rw [if_pos hr, hc]
    simp only [aset, trim_cache, List.length_cons, List.length_nil]
    rw [if_pos (by omega)]
    simp only [cacheGet, alookup_cons_self]
    rw [if_neg (not_lt.mpr httl), if_neg (not_not_intro rfl)]

/-- C2 witness: after a fingerprint change and a fresh background generation,
`get` serves the new response within its TTL. -/
theorem claim2_witness :
    (cacheGet (generate_and_cache cacheDemo1 0 "ready_for_departure"
        (build_prompt ("Pilot reports ready for departure") "KSMF" "28" "N12345" "121.900")
        CachePhase.TAXI_OUT ("Cessna 12345, runway 28, cleared for takeoff"))
      100 "ready_for_departure").1 =
      some ("Cessna 12345, runway 28, cleared for takeoff") := by
  apply claim2_cache_servability.2.2.2.2
  · decide
  · decide
  · decide
  · rw [show cacheDemo1.ttl_seconds = 300 from by decide]
    norm_num
